import Mathlib

/-!
# Verification of the ai-visibility ContentAnalyzer

Shallow embedding of `src/analyzer/content-analyzer.ts` (class `ContentAnalyzer`).

The analyzer is a pure function of the HTML text and its configuration.  It accesses
the input only through the cheerio DOM produced by `cheerio.load(html)`; the embedding
therefore starts from the parsed DOM: a tree of element/text nodes.  CSS queries used
by the analyzer (`$( sel )`, `.find`, `.nextAll`, `.next`, `.text()`) are modelled as
document-order (preorder) traversals of that tree, matching cheerio's semantics.

JavaScript regular-expression matching (`String.prototype.match`, `RegExp.test`),
`JSON.parse`, and float formatting (`Number.prototype.toFixed`) are runtime library
services; the analyzer only consumes their results as word counts, fact counts,
booleans and rendered rate strings.  They are modelled as components of a
`TextOracle` record, each field documented with the verbatim construct it stands for;
every theorem below is invariant under the choice of oracle, so no claim depends on
the internal behaviour of the regex engine.

Numeric conventions: all sub-scores are machine integers in the source, embedded as
`Nat` (with `Int` used where the running score of `checkHeadingStructure` can go
negative before the `Math.max(0, score)` floor).  `Math.round` of the weighted average
is embedded as exact rational rounding half-up, `⌊q + 1/2⌋`, which is `Math.round`'s
behaviour on non-negative values.
-/

namespace AIVisibility

/-! ## DOM model (output of cheerio.load) -/

mutual
inductive Node where
  | text (s : String) : Node
  | elem (tag : String) (attrs : List (String × String)) (children : NodeList) : Node
  deriving DecidableEq
inductive NodeList where
  | nil : NodeList
  | cons (hd : Node) (tl : NodeList) : NodeList
  deriving DecidableEq
end

/-- A parsed document: the list of root nodes of the DOM. -/
abbrev Doc := NodeList

/-- Tag name of a node (text nodes have none; `""` is never a valid tag). -/
def tagOf : Node → String
  | .text _ => ""
  | .elem t _ _ => t

/-- Children of a node. -/
def childrenOf : Node → NodeList
  | .text _ => .nil
  | .elem _ _ cs => cs

/-- First value of attribute `a` on `n` (HTML keeps the first duplicate attribute). -/
def getAttr (n : Node) (a : String) : Option String :=
  match n with
  | .text _ => none
  | .elem _ attrs _ => attrs.lookup a

mutual
/-- `.text()` of a single node: concatenated text descendants, document order. -/
def textContent : Node → String
  | .text s => s
  | .elem _ _ cs => textOfList cs

def textOfList : NodeList → String
  | .nil => ""
  | .cons c cs => textContent c ++ textOfList cs
end

mutual
/-- All element nodes within `n` (including `n` itself), in document (preorder) order. -/
def elemsSelfAnd : Node → List Node
  | .text _ => []
  | .elem t a cs => Node.elem t a cs :: elemsIn cs

/-- All element nodes under a node list, in document (preorder) order. -/
def elemsIn : NodeList → List Node
  | .nil => []
  | .cons c cs => elemsSelfAnd c ++ elemsIn cs
end

/-- `$(sel)` on the document: all elements matching the predicate, document order. -/
def selectAll (p : Node → Bool) (d : Doc) : List Node :=
  (elemsIn d).filter p

/-- The members of a sibling list, as a `List`. -/
def sibsOf : NodeList → List Node
  | .nil => []
  | .cons c cs => c :: sibsOf cs

/-- First element (non-text) node of a sibling list: cheerio's `.next()` target. -/
def firstElemOf : NodeList → Option Node
  | .nil => none
  | .cons (.text _) tl => firstElemOf tl
  | .cons (.elem t a cs) _ => some (Node.elem t a cs)

/-- Locate the first element matching `p` in document order, together with the
sibling list that follows it (the context needed for `.nextAll` / `.next`). -/
def firstWithFollowing (p : Node → Bool) : NodeList → Option (Node × NodeList)
  | .nil => none
  | .cons hd tl =>
    if p hd then some (hd, tl)
    else
      match hd with
      | .text _ => firstWithFollowing p tl
      | .elem _ _ cs =>
        match firstWithFollowing p cs with
        | some r => some r
        | none => firstWithFollowing p tl

/-- All elements matching `p` in document order, each paired with its next element
sibling (cheerio `.next()`), used by the snippability loop. -/
def pairsIn (p : Node → Bool) : NodeList → List (Node × Option Node)
  | .nil => []
  | .cons (.text _) tl => pairsIn p tl
  | .cons (.elem t a cs) tl =>
    (if p (Node.elem t a cs) then [(Node.elem t a cs, firstElemOf tl)] else [])
      ++ pairsIn p cs ++ pairsIn p tl

/-! ## String helpers (JS `String.prototype` operations used by the analyzer) -/

/-- `startsWithL hay pat`: does `hay` start with `pat`? -/
def startsWithL : List Char → List Char → Bool
  | _, [] => true
  | [], _ :: _ => false
  | a :: as, b :: bs => a == b && startsWithL as bs

/-- `subListAt hay pat`: index of the first occurrence of `pat` in `hay`, if any. -/
def subListAt : List Char → List Char → Option Nat
  | [], pat => if startsWithL [] pat then some 0 else none
  | h :: t, pat =>
    if startsWithL (h :: t) pat then some 0
    else (subListAt t pat).map (· + 1)

/-- JS `haystack.includes(needle)`. -/
def strContains (hay pat : String) : Bool :=
  (subListAt hay.toList pat.toList).isSome

/-- JS `haystack.indexOf(needle)`: first index, `-1` when absent. -/
def strIndexOf (hay pat : String) : Int :=
  match subListAt hay.toList pat.toList with
  | some n => (n : Int)
  | none => -1

/-- JS `haystack.startsWith(needle)` (used for `[href^="..."]` attribute selectors). -/
def strStartsWith (hay pat : String) : Bool :=
  startsWithL hay.toList pat.toList

/-- Build a string back from its character list. -/
def strOfList (cs : List Char) : String :=
  ⟨cs⟩

/-- JS `s.trim()`: strip leading and trailing whitespace. -/
def jsTrim (s : String) : String :=
  strOfList (((s.toList.dropWhile Char.isWhitespace).reverse.dropWhile Char.isWhitespace).reverse)

/-- JS `s.toLowerCase()` (character-wise lowering). -/
def jsToLower (s : String) : String :=
  strOfList (s.toList.map Char.toLower)

/-- JS `s.slice(0, n)`. -/
def strTake (s : String) (n : Nat) : String :=
  strOfList (s.toList.take n)

/-- Split a character list at whitespace (chunks may be empty). -/
def wsChunks : List Char → List Char → List String
  | acc, [] => [strOfList acc.reverse]
  | acc, c :: rest =>
    if c.isWhitespace then strOfList acc.reverse :: wsChunks [] rest
    else wsChunks (c :: acc) rest

/-- The whitespace-separated class tokens of a node's `class` attribute
(CSS `.name` selectors match by token). -/
def classTokens (n : Node) : List String :=
  (wsChunks [] ((getAttr n "class").getD "").toList).filter (fun t => !(t == ""))

/-- Value of an all-digit character sequence (`parseInt` on a digit string;
`none` mirrors `NaN`). -/
def digitsVal (cs : List Char) : Option Nat :=
  if !cs.isEmpty && cs.all Char.isDigit then
    some (cs.foldl (fun a c => 10 * a + (c.toNat - 48)) 0)
  else none

/-- CSS class selector `.c`. -/
def hasClassToken (n : Node) (c : String) : Bool :=
  (classTokens n).contains c

/-- CSS attribute-contains selector `[a*="v"]`: attribute present and value contains `v`. -/
def attrContains (n : Node) (a v : String) : Bool :=
  match getAttr n a with
  | some s => strContains s v
  | none => false

/-- CSS attribute-equals selector `[a="v"]`. -/
def attrEq (n : Node) (a v : String) : Bool :=
  getAttr n a == some v

/-- CSS attribute-starts-with selector `[a^="v"]`. -/
def attrStarts (n : Node) (a v : String) : Bool :=
  match getAttr n a with
  | some s => strStartsWith s v
  | none => false

/-- Tag-name selector. -/
def isTag (t : String) (n : Node) : Bool :=
  tagOf n == t

/-! ## Result data model (`src/types`: AnalysisIssue, AIReadabilityScore) -/

inductive Severity where
  | high
  | medium
  | low
  deriving DecidableEq

inductive IssueType where
  | answerPlacement
  | factDensity
  | headingStructure
  | eeat
  | snippability
  | schema
  deriving DecidableEq

structure AnalysisIssue where
  type : IssueType
  severity : Severity
  message : String
  fix : String
  deriving DecidableEq

/-- The `{ score, issues }` record each private check returns. -/
structure CheckResult where
  score : Nat
  issues : List AnalysisIssue
  deriving DecidableEq

structure Breakdown where
  answerFrontLoading : Nat
  factDensity : Nat
  headingStructure : Nat
  eeatSignals : Nat
  snippability : Nat
  schemaCoverage : Nat
  deriving DecidableEq

structure AIReadabilityScore where
  overallScore : Nat
  breakdown : Breakdown
  issues : List AnalysisIssue
  recommendations : List String
  deriving DecidableEq

/-- `AnalyzerOptions`, with `DEFAULT_OPTIONS` as the default field values
(constructor merging `{ ...DEFAULT_OPTIONS, ...options }`). -/
structure AnalyzerOptions where
  checkAnswerPlacement : Bool := true
  checkFactDensity : Bool := true
  checkHeadingStructure : Bool := true
  checkEEAT : Bool := true
  checkSnippability : Bool := true
  checkSchema : Bool := true
  deriving DecidableEq

/-- Runtime text services the analyzer delegates to the JS standard library.
Each field models one verbatim construct of `content-analyzer.ts`; the theorems in
this file hold for every oracle, so nothing depends on the regex engine itself.  -/
structure TextOracle where
  /-- `text.split(/\s+/).filter(Boolean).length` (line 211). -/
  countWords : String → Nat
  /-- `(text.match(/\b\d+(?:\.\d+)?%|\b\d{4}\b|.../gi) ?? []).length` (lines 215-219). -/
  countFacts : String → Nat
  /-- `factsPerHundred.toFixed(1)` (lines 233, 243), as a function of the fact and
  word totals `F`, `W`: the decimal rendering of the IEEE-754 double
  `(F / W) * 100`.  This is an oracle service because `toFixed` rounds the
  *computed double*, not the exact rational: at `F = 3`, `W = 2000` the double is
  just below 0.15 and the program prints "0.1", while exact half-up rounding of
  0.15 would give "0.2".  No claim depends on the rendered digits. -/
  rateFixed1 : Nat → Nat → String
  /-- `$('body').text().match(/written by|by [A-Z][a-z]+ [A-Z][a-z]+/i) !== null` (line 320). -/
  authorByline : String → Bool
  /-- `trustSignals.some((pattern) => pattern.test(bodyText))` (lines 366-375). -/
  trustSignal : String → Bool
  /-- `JSON.parse($(el).html() ?? '')` succeeds (line 449). -/
  jsonParses : String → Bool
  /-- parsed JSON has truthy `@context` and `@type` keys (line 450). -/
  jsonHasContextAndType : String → Bool

/-! ## checkAnswerFrontLoading (lines 138-201) -/

/-- `['is', 'are', 'helps', 'provides', 'enables', 'allows', 'lets', 'gives', 'makes']`. -/
def answerWords : List String :=
  ["is", "are", "helps", "provides", "enables", "allows", "lets", "gives", "makes"]

/-- `'main, article, [role="main"], .content, #content'` (line 153). -/
def isMainContainer (n : Node) : Bool :=
  isTag "main" n || isTag "article" n || attrEq n "role" "main"
    || hasClassToken n "content" || attrEq n "id" "content"

/-- `$('body').text()`: text of every `body` element, concatenated in document order. -/
def bodyText (d : Doc) : String :=
  String.join ((selectAll (isTag "body") d).map textContent)

/-- The paragraph node inspected by `checkAnswerFrontLoading` (lines 152-156):
`mainContent.length ? mainContent.find('p').first() : $('h1').first().nextAll('p').first()`.
`find('p')` searches the container's descendants; `nextAll('p')` searches only the
following *siblings* of the first `h1`. -/
def chosenParagraph (d : Doc) : Option Node :=
  match (selectAll isMainContainer d).head? with
  | some mc => ((elemsIn (childrenOf mc)).filter (isTag "p")).head?
  | none =>
    match firstWithFollowing (isTag "h1") d with
    | some (_, sibs) => ((sibsOf sibs).filter (isTag "p")).head?
    | none => none

def checkAnswerFrontLoading (d : Doc) : CheckResult :=
  match (selectAll (isTag "h1") d).head? with
  | none =>
    ⟨0, [⟨.answerPlacement, .high, "No H1 tag found on the page",
          "Add a clear, descriptive H1 tag that states what this page is about"⟩]⟩
  | some h1 =>
    let firstPText := jsTrim (((chosenParagraph d).map textContent).getD "")
    if firstPText == "" || firstPText.length < 30 then
      ⟨20, [⟨.answerPlacement, .high, "No substantive paragraph found after H1",
             "Add a clear, direct answer or description in the first paragraph immediately after your H1"⟩]⟩
    else
      let h1Text := jsToLower (textContent h1)
      let hasDirectAnswer := answerWords.any (fun w => strContains (jsToLower firstPText) w)
      let allText := bodyText d
      let firstPPosition : Int := strIndexOf allText (strTake firstPText 50)
      -- `positionRatio = firstPPosition / allText.length` compared against `0.2`;
      -- exact-rational form (`NaN > 0.2` is false in JS, matching the `length = 0` case).
      let posTooFar := !(allText.length == 0) && decide (5 * firstPPosition > (allText.length : Int))
      if !hasDirectAnswer then
        ⟨55, [⟨.answerPlacement, .medium, "First paragraph may not directly answer the page topic",
               "Start with a direct statement like \"This page covers...\" or \"" ++ h1Text ++ " is...\""⟩]⟩
      else if posTooFar then
        ⟨65, [⟨.answerPlacement, .medium, "Main answer appears too far down the page",
               "Move the key answer/description to the very top of the page content"⟩]⟩
      else
        ⟨95, []⟩

/-! ## checkFactDensity (lines 203-260) -/

/-- Total word count over all `p` elements (lines 209-212). -/
def totalWords (o : TextOracle) (d : Doc) : Nat :=
  ((selectAll (isTag "p") d).map (fun p => o.countWords (textContent p))).sum

/-- Total fact-token count over all `p` elements (lines 214-220). -/
def totalFacts (o : TextOracle) (d : Doc) : Nat :=
  ((selectAll (isTag "p") d).map (fun p => o.countFacts (textContent p))).sum

def factDensityNoContentIssue : AnalysisIssue :=
  ⟨.factDensity, .high, "No paragraph content found", "Add substantive text content to the page"⟩

/-- The high-severity low-density issue; `rate` is the runtime's
`factsPerHundred.toFixed(1)` rendering (`TextOracle.rateFixed1`). -/
def factDensityVeryLowIssue (rate : String) : AnalysisIssue :=
  ⟨.factDensity, .high,
    "Very low fact density: " ++ rate ++ " facts per 100 words (target: 4-6)",
    "Add specific numbers, dates, statistics, or measurable claims to support your content"⟩

/-- The medium-severity below-target issue; `rate` as in `factDensityVeryLowIssue`. -/
def factDensityBelowTargetIssue (rate : String) : AnalysisIssue :=
  ⟨.factDensity, .medium,
    "Below-target fact density: " ++ rate ++ " facts per 100 words (target: 4-6)",
    "Include more specific data points, percentages, or concrete examples"⟩

def factDensityTooDenseIssue : AnalysisIssue :=
  ⟨.factDensity, .low, "Very high fact density — content may feel dense or list-heavy",
    "Add explanatory prose between data points to improve readability"⟩

def checkFactDensity (o : TextOracle) (d : Doc) : CheckResult :=
  let W := totalWords o d
  let F := totalFacts o d
  if W == 0 then
    ⟨0, [factDensityNoContentIssue]⟩
  -- `factsPerHundred = (F / W) * 100`; the three float comparisons below are the
  -- exact-rational forms of `< 2`, `< 4`, `> 10`.
  else if 100 * F < 2 * W then
    ⟨25, [factDensityVeryLowIssue (o.rateFixed1 F W)]⟩
  else if 100 * F < 4 * W then
    ⟨60, [factDensityBelowTargetIssue (o.rateFixed1 F W)]⟩
  else if 100 * F > 10 * W then
    ⟨75, [factDensityTooDenseIssue]⟩
  else
    ⟨95, []⟩

/-! ## checkHeadingStructure (lines 262-310) -/

/-- `parseInt(el.tagName.replace('h', ''), 10)`. -/
def headingLevel (n : Node) : Nat :=
  (digitsVal ((tagOf n).toList.drop 1)).getD 0

def isHeading14 (n : Node) : Bool :=
  isTag "h1" n || isTag "h2" n || isTag "h3" n || isTag "h4" n

def isHeading13 (n : Node) : Bool :=
  isTag "h1" n || isTag "h2" n || isTag "h3" n

def mkSkippedIssue (lastLevel level : Nat) : AnalysisIssue :=
  ⟨.headingStructure, .low,
    "Heading level skipped: H" ++ toString lastLevel ++ " → H" ++ toString level,
    "Add an H" ++ toString (lastLevel + 1) ++ " between your H" ++ toString lastLevel
      ++ " and H" ++ toString level⟩

/-- The skipped-level walk (lines 286-299): fold over `$('h1, h2, h3, h4')` in document
order, starting with `lastLevel = 1`, emitting an issue (worth −10 each) whenever
`level > lastLevel + 1`, and updating `lastLevel` to the current level each step. -/
def skippedLevelIssues : Nat → List Node → List AnalysisIssue
  | _, [] => []
  | lastLevel, n :: rest =>
    let level := headingLevel n
    (if level > lastLevel + 1 then [mkSkippedIssue lastLevel level] else [])
      ++ skippedLevelIssues level rest

def emptyHeadingIssue : AnalysisIssue :=
  ⟨.headingStructure, .medium, "Empty heading tag found", "Remove or fill empty heading tags"⟩

/-- Lines 302-307: one issue (worth −10) per `h1/h2/h3` whose trimmed text is empty. -/
def emptyHeadingIssues (hs : List Node) : List AnalysisIssue :=
  hs.filterMap (fun n => if jsTrim (textContent n) == "" then some emptyHeadingIssue else none)

def missingH1Issue : AnalysisIssue :=
  ⟨.headingStructure, .high, "Missing H1 tag", "Add exactly one H1 tag as the main page title"⟩

def multipleH1Issue (h1Count : Nat) : AnalysisIssue :=
  ⟨.headingStructure, .medium, "Multiple H1 tags found (" ++ toString h1Count ++ ")",
    "Use only one H1 per page. Demote additional H1s to H2"⟩

def h3WithoutH2Issue : AnalysisIssue :=
  ⟨.headingStructure, .medium, "H3 tags used without any H2 tags",
    "Add H2 headings to create proper hierarchy: H1 → H2 → H3"⟩

def checkHeadingStructure (d : Doc) : CheckResult :=
  let h1Count := (selectAll (isTag "h1") d).length
  let h2Count := (selectAll (isTag "h2") d).length
  let h3Count := (selectAll (isTag "h3") d).length
  let h1Issues := if h1Count == 0 then [missingH1Issue]
                  else if h1Count > 1 then [multipleH1Issue h1Count] else []
  let h1Penalty : Nat := if h1Count == 0 then 40 else if h1Count > 1 then 20 else 0
  let h3Issues := if h3Count > 0 && h2Count == 0 then [h3WithoutH2Issue] else []
  let h3Penalty : Nat := if h3Count > 0 && h2Count == 0 then 20 else 0
  let skipIssues := skippedLevelIssues 1 (selectAll isHeading14 d)
  let emptyIssues := emptyHeadingIssues (selectAll isHeading13 d)
  let score : Int :=
    100 - h1Penalty - h3Penalty - 10 * skipIssues.length - 10 * emptyIssues.length
  ⟨(max 0 score).toNat, h1Issues ++ h3Issues ++ skipIssues ++ emptyIssues⟩

/-! ## checkEEAT (lines 312-389) -/

/-- `'[itemtype*="Person"], [itemprop="author"], meta[name="author"], .author, [rel="author"]'`. -/
def isAuthorMarkup (n : Node) : Bool :=
  attrContains n "itemtype" "Person" || attrEq n "itemprop" "author"
    || (isTag "meta" n && attrEq n "name" "author")
    || hasClassToken n "author" || attrEq n "rel" "author"

/-- `'[itemtype*="Organization"], [itemprop="publisher"]'`. -/
def isOrgMarkup (n : Node) : Bool :=
  attrContains n "itemtype" "Organization" || attrEq n "itemprop" "publisher"

/-- `'meta[property="og:site_name"]'`. -/
def isSiteNameMeta (n : Node) : Bool :=
  isTag "meta" n && attrEq n "property" "og:site_name"

/-- `'a[href^="mailto:"], a[href^="tel:"], [role="contentinfo"], footer'`. -/
def isContactMarkup (n : Node) : Bool :=
  (isTag "a" n && attrStarts n "href" "mailto:") || (isTag "a" n && attrStarts n "href" "tel:")
    || attrEq n "role" "contentinfo" || isTag "footer" n

def eeatNoAuthorIssue : AnalysisIssue :=
  ⟨.eeat, .medium, "No author information detected",
    "Add author name with a link to their bio or use schema.org Person markup"⟩

def eeatNoOrgIssue : AnalysisIssue :=
  ⟨.eeat, .low, "No organization/publisher markup found",
    "Add Organization schema or og:site_name meta tag"⟩

def eeatNoContactIssue : AnalysisIssue :=
  ⟨.eeat, .medium, "No contact information found",
    "Add email, phone, or contact page link — AI models use this as a trust signal"⟩

def eeatNoTrustIssue : AnalysisIssue :=
  ⟨.eeat, .low, "No expertise/trust signals detected",
    "Add credentials, years of experience, customer counts, or press mentions"⟩

def checkEEAT (o : TextOracle) (d : Doc) : CheckResult :=
  let hasAuthor := !(selectAll isAuthorMarkup d).isEmpty || o.authorByline (bodyText d)
  let hasOrg := !(selectAll isOrgMarkup d).isEmpty || !(selectAll isSiteNameMeta d).isEmpty
  let hasContact := !(selectAll isContactMarkup d).isEmpty
  let hasTrustSignals := o.trustSignal (bodyText d)
  let score : Nat := (if hasAuthor then 25 else 0) + (if hasOrg then 25 else 0)
    + (if hasContact then 25 else 0) + (if hasTrustSignals then 25 else 0)
  let issues :=
    (if hasAuthor then [] else [eeatNoAuthorIssue])
      ++ (if hasOrg then [] else [eeatNoOrgIssue])
      ++ (if hasContact then [] else [eeatNoContactIssue])
      ++ (if hasTrustSignals then [] else [eeatNoTrustIssue])
  ⟨min score 100, issues⟩

/-! ## checkSnippability (lines 391-430) -/

def isH2orH3 (n : Node) : Bool :=
  isTag "h2" n || isTag "h3" n

def snippabilityNoHeadingsIssue : AnalysisIssue :=
  ⟨.snippability, .medium, "No H2/H3 subheadings found",
    "Break content into sections with descriptive H2/H3 headings so AI can extract individual sections"⟩

/-- `$(el).next().text().trim()` for a heading paired with its next element sibling. -/
def nextSiblingText (pr : Node × Option Node) : String :=
  jsTrim ((pr.2.map textContent).getD "")

def snippableEnough (pr : Node × Option Node) : Bool :=
  (nextSiblingText pr).length ≥ 80

def snippabilityThinSectionIssue (heading : Node) : AnalysisIssue :=
  ⟨.snippability, .low,
    "Section \"" ++ jsTrim (textContent heading) ++ "\" has insufficient content below it",
    "Add at least 2-3 sentences of context below each heading so the section can stand alone"⟩

def checkSnippability (d : Doc) : CheckResult :=
  let headings := pairsIn isH2orH3 d
  if headings.isEmpty then
    ⟨30, [snippabilityNoHeadingsIssue]⟩
  else
    let totalChecked := headings.length
    let snippableCount := headings.countP snippableEnough
    let issues := headings.filterMap
      (fun pr => if snippableEnough pr then none else some (snippabilityThinSectionIssue pr.1))
    -- `Math.round((snippableCount / Math.max(totalChecked, 1)) * 100)` as exact
    -- half-up rounding.  The float product can land a hair below an exact .5 tie
    -- (e.g. 23/40: the double of (23/40)*100 is 57.49999999999999, so the program
    -- rounds to 57 where exact rounding gives 58); at such ties this form can
    -- differ by 1, strictly inside [0,100], and no claim depends on a tie value.
    let t := max totalChecked 1
    ⟨(200 * snippableCount + t) / (2 * t), issues⟩

/-! ## checkSchemaCoverage (lines 432-490) -/

def isLdJsonScript (n : Node) : Bool :=
  isTag "script" n && attrEq n "type" "application/ld+json"

def schemaNoneIssue : AnalysisIssue :=
  ⟨.schema, .high, "No JSON-LD structured data found",
    "Add JSON-LD schema markup using SchemaBuilder from ai-visibility"⟩

def schemaParseErrorIssue : AnalysisIssue :=
  ⟨.schema, .medium, "Invalid JSON-LD schema found (parse error)",
    "Validate your JSON-LD using schema.org validator or use SchemaBuilder"⟩

def schemaNoFaqIssue : AnalysisIssue :=
  ⟨.schema, .low, "No FAQPage schema found",
    "Add FAQ schema to help AI models extract Q&A content from your page"⟩

def schemaNoOrgIssue : AnalysisIssue :=
  ⟨.schema, .low, "No Organization schema found",
    "Add Organization schema to establish E-E-A-T signals for AI models"⟩

def checkSchemaCoverage (o : TextOracle) (d : Doc) : CheckResult :=
  let schemaScripts := selectAll isLdJsonScript d
  if schemaScripts.isEmpty then
    ⟨0, [schemaNoneIssue]⟩
  else
    -- the `try { JSON.parse ... } catch { push issue }` loop (lines 446-459);
    -- a script's `.html()` content is its raw text, i.e. its text content.
    let parseIssues := schemaScripts.filterMap
      (fun s => if o.jsonParses (textContent s) then none else some schemaParseErrorIssue)
    let validSchemas := schemaScripts.countP
      (fun s => o.jsonParses (textContent s) && o.jsonHasContextAndType (textContent s))
    if validSchemas == 0 then
      ⟨10, parseIssues⟩
    else
      let schemaText := String.join (schemaScripts.map textContent)
      let hasFAQ := strContains schemaText "\"FAQPage\""
      let hasOrg := strContains schemaText "\"Organization\""
      let faqIssues := if hasFAQ then [] else [schemaNoFaqIssue]
      let orgIssues := if hasOrg then [] else [schemaNoOrgIssue]
      let score : Nat := if hasFAQ && hasOrg then 100 else if hasFAQ || hasOrg then 75 else 50
      ⟨score, parseIssues ++ faqIssues ++ orgIssues⟩

/-! ## Aggregation: analyze (lines 47-134) and recommendations (lines 494-521) -/

def generateRecommendations (b : Breakdown) : List String :=
  let recs :=
    (if b.answerFrontLoading < 70 then
      ["📌 Front-load your answers: AI models prioritize content in the first 20% of a section"] else [])
    ++ (if b.factDensity < 60 then
      ["📊 Add more data: Include specific numbers, dates, and statistics to improve citability"] else [])
    ++ (if b.headingStructure < 80 then
      ["🏗️ Fix heading hierarchy: Use H1 → H2 → H3 consistently for better content parsing"] else [])
    ++ (if b.eeatSignals < 60 then
      ["🏆 Boost E-E-A-T: Add author credentials, company info, and trust signals"] else [])
    ++ (if b.snippability < 70 then
      ["✂️ Improve snippability: Each section should be self-contained and informative"] else [])
    ++ (if b.schemaCoverage < 50 then
      ["🔖 Add structured data: Use SchemaBuilder to add JSON-LD markup for AI understanding"] else [])
  if recs.isEmpty then ["✅ Great job! Your content is well-optimized for AI visibility"] else recs

/-- The check-dispatch section of `analyze` (lines 59-105): each enabled check fills
its breakdown entry and appends its issues; a disabled check is forced to 100 with no
issues.  Issues are collected in the fixed source order: answer placement, fact
density, heading structure, E-E-A-T, snippability, schema. -/
def collectChecks (opts : AnalyzerOptions) (o : TextOracle) (d : Doc) :
    Breakdown × List AnalysisIssue :=
  let r1 := if opts.checkAnswerPlacement then checkAnswerFrontLoading d else ⟨100, []⟩
  let r2 := if opts.checkFactDensity then checkFactDensity o d else ⟨100, []⟩
  let r3 := if opts.checkHeadingStructure then checkHeadingStructure d else ⟨100, []⟩
  let r4 := if opts.checkEEAT then checkEEAT o d else ⟨100, []⟩
  let r5 := if opts.checkSnippability then checkSnippability d else ⟨100, []⟩
  let r6 := if opts.checkSchema then checkSchemaCoverage o d else ⟨100, []⟩
  (⟨r1.score, r2.score, r3.score, r4.score, r5.score, r6.score⟩,
    r1.issues ++ r2.issues ++ r3.issues ++ r4.issues ++ r5.issues ++ r6.issues)

/-- 100 × the weighted sum of lines 107-121: weights 0.25, 0.15, 0.15, 0.20, 0.10,
0.15, accumulated over `Object.entries(breakdown)` in field order. -/
def weightedTimes100 (b : Breakdown) : Nat :=
  25 * b.answerFrontLoading + 15 * b.factDensity + 15 * b.headingStructure
    + 20 * b.eeatSignals + 10 * b.snippability + 15 * b.schemaCoverage

/-- JS `Math.round` on a non-negative value: round half up. -/
def jsRound (q : ℚ) : ℤ :=
  ⌊q + 1 / 2⌋

/-- `order = { high: 0, medium: 1, low: 2 }` (line 129). -/
def severityOrder : Severity → Nat
  | .high => 0
  | .medium => 1
  | .low => 2

/-- The sort comparator `(a, b) => order[a.severity] - order[b.severity]` (lines
128-131) as a `≤` test: `a` sorts no later than `b` iff its rank is no larger. -/
def issueLE (a b : AnalysisIssue) : Bool :=
  severityOrder a.severity ≤ severityOrder b.severity

/-- `issues.sort((a, b) => order[a.severity] - order[b.severity])`.
`Array.prototype.sort` is stable (ECMA-262 §23.1.3.30) and the comparator is a
consistent total preorder on the three severity ranks, so the result is the unique
stable sort by rank, here realised by the stable `List.mergeSort`. -/
def sortIssues (l : List AnalysisIssue) : List AnalysisIssue :=
  l.mergeSort issueLE

/-- `ContentAnalyzer.analyze` (lines 47-134): the returned `AIReadabilityScore`.
`Math.round` of the float weighted sum is the exact-rational rounding
`(weightedTimes100 b + 50) / 100` (see `overall_eq_jsRound` below). -/
def analyze (opts : AnalyzerOptions) (o : TextOracle) (d : Doc) : AIReadabilityScore :=
  let bi := collectChecks opts o d
  ⟨(weightedTimes100 bi.1 + 50) / 100, bi.1, sortIssues bi.2, generateRecommendations bi.1⟩

/-! ## Concrete instances used by witnesses and counterexamples -/

/-- A trivial oracle (all regex services report nothing). -/
def trivialOracle : TextOracle :=
  ⟨fun _ => 0, fun _ => 0, fun _ _ => "0.0", fun _ => false, fun _ => false,
    fun _ => false, fun _ => false⟩

/-- The DOM that `cheerio.load('')` produces: bare `html`/`head`/`body` skeleton. -/
def emptyDoc : Doc :=
  .cons (.elem "html" [] (.cons (.elem "head" [] .nil) (.cons (.elem "body" [] .nil) .nil))) .nil

/-- A configuration with every check disabled. -/
def allDisabledOptions : AnalyzerOptions :=
  ⟨false, false, false, false, false, false⟩

/-- An oracle whose word/fact extractors report 200 words and 12 fact tokens. -/
def rateOracle : TextOracle :=
  ⟨fun _ => 200, fun _ => 12, fun _ _ => "6.0", fun _ => false, fun _ => false,
    fun _ => false, fun _ => false⟩

/-- A document with a single paragraph. -/
def oneParagraphDoc : Doc :=
  .cons (.elem "p" [] (.cons (.text "sample") .nil)) .nil

def h1Node : Node :=
  .elem "h1" [] (.cons (.text "Title") .nil)

def h3Node : Node :=
  .elem "h3" [] (.cons (.text "Sub") .nil)

/-- A document whose headings are an `h1` directly followed by an `h3`. -/
def h1h3Doc : Doc :=
  .cons h1Node (.cons h3Node .nil)

def h3OnlyNode : Node :=
  .elem "h3" [] (.cons (.text "Intro") .nil)

/-- A document whose first (and only) heading is an `h3`. -/
def h3FirstDoc : Doc :=
  .cons h3OnlyNode .nil

/-! ## The two readings of the answer-placement paragraph locator -/

/-- Modelled from the spec sentence of §4.1: with no main/content container, inspect
"the first paragraph following the principal heading in document order" — the first
`p` element occurring after the first `h1` anywhere in the preorder traversal. -/
def specParagraphAfterH1 (d : Doc) : Option Node :=
  match (elemsIn d).dropWhile (fun n => !(isTag "h1" n)) with
  | [] => none
  | _ :: rest => (rest.filter (isTag "p")).head?

/-- The sibling-based locator the code actually uses in the no-container branch:
`$('h1').first().nextAll('p').first()`, the first `p` among the principal heading's
*following siblings*. -/
def firstSiblingParagraphAfterH1 (d : Doc) : Option Node :=
  match firstWithFollowing (isTag "h1") d with
  | some (_, sibs) => ((sibsOf sibs).filter (isTag "p")).head?
  | none => none

/-- Counterexample document for C4: the only paragraph after the `h1` is nested in a
`div`, so it follows the heading in document order but is not its sibling. -/
def nestedParagraphDoc : Doc :=
  .cons (.elem "html" [] (.cons (.elem "body" []
    (.cons (.elem "h1" [] (.cons (.text "Title") .nil))
      (.cons (.elem "div" []
        (.cons (.elem "p" []
          (.cons (.text "This page is a long explanation of the topic that it covers.") .nil))
         .nil))
       .nil)))
    .nil)) .nil

/-- A document where the first `p` after the `h1` is a direct sibling. -/
def siblingParagraphDoc : Doc :=
  .cons (.elem "h1" [] (.cons (.text "Topic") .nil))
    (.cons (.elem "p" []
      (.cons (.text "This topic is explained at length directly below the heading.") .nil))
     .nil)

/-! ## Range lemmas: every check score lies in [0, 100] -/

theorem checkAnswerFrontLoading_score_le (d : Doc) :
    (checkAnswerFrontLoading d).score ≤ 100 := by
  unfold checkAnswerFrontLoading
  dsimp only
  repeat' split
  all_goals simp

theorem checkFactDensity_score_le (o : TextOracle) (d : Doc) :
    (checkFactDensity o d).score ≤ 100 := by
  unfold checkFactDensity
  dsimp only
  repeat' split
  all_goals simp

theorem checkHeadingStructure_score_le (d : Doc) :
    (checkHeadingStructure d).score ≤ 100 := by
  unfold checkHeadingStructure
  dsimp only
  omega

theorem checkEEAT_score_le (o : TextOracle) (d : Doc) :
    (checkEEAT o d).score ≤ 100 := by
  unfold checkEEAT
  dsimp only
  exact Nat.min_le_right _ _

theorem checkSnippability_score_le (d : Doc) :
    (checkSnippability d).score ≤ 100 := by
  unfold checkSnippability
  dsimp only
  split
  · simp
  · have hcount : (pairsIn isH2orH3 d).countP snippableEnough ≤ (pairsIn isH2orH3 d).length :=
      List.countP_le_length _
    have ht : 1 ≤ max (pairsIn isH2orH3 d).length 1 := le_max_right _ _
    have hle : (pairsIn isH2orH3 d).length ≤ max (pairsIn isH2orH3 d).length 1 := le_max_left _ _
    apply Nat.lt_succ_iff.mp
    rw [Nat.div_lt_iff_lt_mul (by omega)]
    omega

theorem checkSchemaCoverage_score_le (o : TextOracle) (d : Doc) :
    (checkSchemaCoverage o d).score ≤ 100 := by
  unfold checkSchemaCoverage
  dsimp only
  repeat' split
  all_goals simp

/-- All six breakdown entries of a run are at most 100 (disabled checks give 100). -/
theorem collectChecks_bounds (opts : AnalyzerOptions) (o : TextOracle) (d : Doc) :
    (collectChecks opts o d).1.answerFrontLoading ≤ 100
      ∧ (collectChecks opts o d).1.factDensity ≤ 100
      ∧ (collectChecks opts o d).1.headingStructure ≤ 100
      ∧ (collectChecks opts o d).1.eeatSignals ≤ 100
      ∧ (collectChecks opts o d).1.snippability ≤ 100
      ∧ (collectChecks opts o d).1.schemaCoverage ≤ 100 := by
  unfold collectChecks
  dsimp only
  refine ⟨?_, ?_, ?_, ?_, ?_, ?_⟩
  · split
    · exact checkAnswerFrontLoading_score_le d
    · simp
  · split
    · exact checkFactDensity_score_le o d
    · simp
  · split
    · exact checkHeadingStructure_score_le d
    · simp
  · split
    · exact checkEEAT_score_le o d
    · simp
  · split
    · exact checkSnippability_score_le d
    · simp
  · split
    · exact checkSchemaCoverage_score_le o d
    · simp

theorem weightedTimes100_le (b : Breakdown)
    (h1 : b.answerFrontLoading ≤ 100) (h2 : b.factDensity ≤ 100)
    (h3 : b.headingStructure ≤ 100) (h4 : b.eeatSignals ≤ 100)
    (h5 : b.snippability ≤ 100) (h6 : b.schemaCoverage ≤ 100) :
    weightedTimes100 b ≤ 10000 := by
  unfold weightedTimes100
  omega

/-- Exact-rational `Math.round`: `(N + 50) / 100` in `Nat` is `⌊N/100 + 1/2⌋`. -/
theorem natRound_eq_jsRound (N : ℕ) :
    (((N + 50) / 100 : ℕ) : ℤ) = jsRound ((N : ℚ) / 100) := by
  unfold jsRound
  have h : (N : ℚ) / 100 + 1 / 2 = ((N : ℚ) + 50) / 100 := by ring
  rw [h]
  have h2 : ((N : ℚ) + 50) / 100 = (((N + 50 : ℕ) : ℚ)) / ((100 : ℕ) : ℚ) := by
    push_cast
    ring
  rw [h2, Rat.floor_natCast_div_natCast]
  simp

/-! ## The issue sort: `Array.prototype.sort` by severity rank -/

theorem issueLE_trans (a b c : AnalysisIssue) :
    issueLE a b = true → issueLE b c = true → issueLE a c = true := by
  unfold issueLE
  simp only [decide_eq_true_eq]
  omega

theorem issueLE_total (a b : AnalysisIssue) : (issueLE a b || issueLE b a) = true := by
  unfold issueLE
  simp only [Bool.or_eq_true, decide_eq_true_eq]
  omega

theorem sortIssues_perm (l : List AnalysisIssue) : (sortIssues l).Perm l :=
  List.mergeSort_perm l issueLE

theorem sortIssues_sorted (l : List AnalysisIssue) :
    (sortIssues l).Pairwise (fun a b => issueLE a b = true) :=
  List.sorted_mergeSort issueLE_trans issueLE_total l

/-- Stability of the severity sort: within one severity tier the sorted sequence is
exactly the input subsequence of that tier.  -/
theorem sortIssues_filter_sev (l : List AnalysisIssue) (s : Severity) :
    (sortIssues l).filter (fun i => i.severity == s) = l.filter (fun i => i.severity == s) := by
  have hpw : (l.filter (fun i => i.severity == s)).Pairwise (fun a b => issueLE a b = true) := by
    apply List.pairwise_of_forall_mem_list
    intro a ha b hb
    simp only [List.mem_filter, beq_iff_eq] at ha hb
    unfold issueLE
    simp [ha.2, hb.2]
  have hsub : List.Sublist (l.filter (fun i => i.severity == s)) (sortIssues l) :=
    List.sublist_mergeSort issueLE_trans issueLE_total hpw (List.filter_sublist l)
  have hself : (l.filter (fun i => i.severity == s)).filter (fun i => i.severity == s)
      = l.filter (fun i => i.severity == s) := by
    rw [List.filter_filter]
    simp
  have hsub2 : List.Sublist (l.filter (fun i => i.severity == s))
      ((sortIssues l).filter (fun i => i.severity == s)) := by
    have := List.Sublist.filter (fun i => i.severity == s) hsub
    rwa [hself] at this
  have hlen : ((sortIssues l).filter (fun i => i.severity == s)).length
      = (l.filter (fun i => i.severity == s)).length :=
    ((sortIssues_perm l).filter _).length_eq
  exact (hsub2.eq_of_length hlen.symm).symm

theorem analyze_breakdown_eq (opts : AnalyzerOptions) (o : TextOracle) (d : Doc) :
    (analyze opts o d).breakdown = (collectChecks opts o d).1 :=
  rfl

theorem analyze_issues_eq (opts : AnalyzerOptions) (o : TextOracle) (d : Doc) :
    (analyze opts o d).issues = sortIssues (collectChecks opts o d).2 :=
  rfl

theorem analyze_countP (opts : AnalyzerOptions) (o : TextOracle) (d : Doc)
    (p : AnalysisIssue → Bool) :
    (analyze opts o d).issues.countP p = (collectChecks opts o d).2.countP p :=
  (sortIssues_perm _).countP_eq p

/-! ## Each check only emits issues of its own type -/

theorem answer_issue_types {d : Doc} {i : AnalysisIssue}
    (h : i ∈ (checkAnswerFrontLoading d).issues) : i.type = .answerPlacement := by
  unfold checkAnswerFrontLoading at h
  dsimp only at h
  repeat' split at h
  all_goals simp_all

theorem factDensity_issue_types {o : TextOracle} {d : Doc} {i : AnalysisIssue}
    (h : i ∈ (checkFactDensity o d).issues) : i.type = .factDensity := by
  unfold checkFactDensity at h
  dsimp only at h
  repeat' split at h
  all_goals simp_all [factDensityNoContentIssue, factDensityVeryLowIssue,
    factDensityBelowTargetIssue, factDensityTooDenseIssue]

theorem skipped_issue_types {last : Nat} {hs : List Node} {i : AnalysisIssue}
    (h : i ∈ skippedLevelIssues last hs) : i.type = .headingStructure := by
  induction hs generalizing last with
  | nil => simp [skippedLevelIssues] at h
  | cons n rest ih =>
    unfold skippedLevelIssues at h
    dsimp only at h
    simp only [List.mem_append] at h
    rcases h with h | h
    · split at h
      · simp_all [mkSkippedIssue]
      · simp at h
    · exact ih h

theorem headingStructure_issue_types {d : Doc} {i : AnalysisIssue}
    (h : i ∈ (checkHeadingStructure d).issues) : i.type = .headingStructure := by
  unfold checkHeadingStructure at h
  dsimp only at h
  simp only [List.mem_append] at h
  rcases h with ((h | h) | h) | h
  · repeat' split at h
    all_goals simp_all [missingH1Issue, multipleH1Issue]
  · split at h
    · simp_all [h3WithoutH2Issue]
    · simp at h
  · exact skipped_issue_types h
  · unfold emptyHeadingIssues at h
    simp only [List.mem_filterMap] at h
    obtain ⟨a, _, ha⟩ := h
    split at ha
    · simp only [Option.some.injEq] at ha
      subst ha
      rfl
    · simp at ha

theorem eeat_issue_types {o : TextOracle} {d : Doc} {i : AnalysisIssue}
    (h : i ∈ (checkEEAT o d).issues) : i.type = .eeat := by
  unfold checkEEAT at h
  dsimp only at h
  simp only [List.mem_append] at h
  rcases h with ((h | h) | h) | h
  all_goals
    split at h
    · simp at h
    · simp_all [eeatNoAuthorIssue, eeatNoOrgIssue, eeatNoContactIssue, eeatNoTrustIssue]

theorem snippability_issue_types {d : Doc} {i : AnalysisIssue}
    (h : i ∈ (checkSnippability d).issues) : i.type = .snippability := by
  unfold checkSnippability at h
  dsimp only at h
  split at h
  · simp_all [snippabilityNoHeadingsIssue]
  · simp only [List.mem_filterMap] at h
    obtain ⟨a, _, ha⟩ := h
    split at ha
    · simp at ha
    · simp only [Option.some.injEq] at ha
      subst ha
      rfl

theorem schema_issue_types {o : TextOracle} {d : Doc} {i : AnalysisIssue}
    (h : i ∈ (checkSchemaCoverage o d).issues) : i.type = .schema := by
  unfold checkSchemaCoverage at h
  dsimp only at h
  have hparse : ∀ j, j ∈ (selectAll isLdJsonScript d).filterMap
      (fun s => if o.jsonParses (textContent s) = true then none
                else some schemaParseErrorIssue) → j.type = IssueType.schema := by
    intro j hj
    simp only [List.mem_filterMap] at hj
    obtain ⟨a, _, ha⟩ := hj
    split at ha
    · simp at ha
    · simp only [Option.some.injEq] at ha
      subst ha
      rfl
  split at h
  · simp_all [schemaNoneIssue]
  · split at h
    · exact hparse i h
    · simp only [List.mem_append] at h
      rcases h with (h | h) | h
      · exact hparse i h
      · split at h
        · simp at h
        · simp_all [schemaNoFaqIssue]
      · split at h
        · simp at h
        · simp_all [schemaNoOrgIssue]


/-! ## Aggregation helper lemmas -/

theorem overallScore_le (opts : AnalyzerOptions) (o : TextOracle) (d : Doc) :
    (analyze opts o d).overallScore ≤ 100 := by
  have hb := collectChecks_bounds opts o d
  have h10000 := weightedTimes100_le _ hb.1 hb.2.1 hb.2.2.1 hb.2.2.2.1 hb.2.2.2.2.1 hb.2.2.2.2.2
  show (weightedTimes100 (collectChecks opts o d).1 + 50) / 100 ≤ 100
  omega

theorem countP_issues_of_type (t : IssueType) (l : List AnalysisIssue)
    (h : ∀ i ∈ l, i.type ≠ t) : l.countP (fun i => i.type == t) = 0 :=
  List.countP_eq_zero.mpr (fun i hi => by simp [h i hi])

theorem collectChecks_issues_eq (opts : AnalyzerOptions) (o : TextOracle) (d : Doc) :
    (collectChecks opts o d).2
      = (if opts.checkAnswerPlacement then checkAnswerFrontLoading d else ⟨100, []⟩).issues
        ++ (if opts.checkFactDensity then checkFactDensity o d else ⟨100, []⟩).issues
        ++ (if opts.checkHeadingStructure then checkHeadingStructure d else ⟨100, []⟩).issues
        ++ (if opts.checkEEAT then checkEEAT o d else ⟨100, []⟩).issues
        ++ (if opts.checkSnippability then checkSnippability d else ⟨100, []⟩).issues
        ++ (if opts.checkSchema then checkSchemaCoverage o d else ⟨100, []⟩).issues := rfl

theorem ite_issues_countP_zero (t : IssueType) (c : Bool) (r : CheckResult)
    (h : ∀ i ∈ r.issues, i.type ≠ t) :
    ((if c then r else ⟨100, []⟩).issues).countP (fun i => i.type == t) = 0 := by
  cases c
  · rfl
  · simpa using countP_issues_of_type t r.issues h

theorem filter_of_stronger {l : List Node} {p q : Node → Bool}
    (h : ∀ x, p x = true → q x = true) :
    l.filter p = (l.filter q).filter p := by
  rw [List.filter_filter]
  apply List.filter_congr
  intro x _
  cases hp : p x
  · simp
  · simp [h x hp]

/-- A selector implied by another selects exactly the matching subsequence of the
wider selector's result list. -/
theorem selectAll_sub (p q : Node → Bool) (d : Doc) (h : ∀ x, p x = true → q x = true) :
    selectAll p d = (selectAll q d).filter p := by
  unfold selectAll
  exact filter_of_stronger h

/-! ## The claims -/

/-- C1: for every input document and configuration, the returned `overallScore` is
`Math.round` of `0.25·answerFrontLoading + 0.15·factDensity + 0.15·headingStructure +
0.20·eeatSignals + 0.10·snippability + 0.15·schemaCoverage` computed over the returned
breakdown, and consequently `0 ≤ overallScore ≤ 100` (the lower bound holds because
the score is a natural number). -/
theorem c1_overallScore_is_weighted_round (opts : AnalyzerOptions) (o : TextOracle) (d : Doc) :
    ((analyze opts o d).overallScore : ℤ)
      = jsRound ((0.25 : ℚ) * (analyze opts o d).breakdown.answerFrontLoading
          + (0.15 : ℚ) * (analyze opts o d).breakdown.factDensity
          + (0.15 : ℚ) * (analyze opts o d).breakdown.headingStructure
          + (0.20 : ℚ) * (analyze opts o d).breakdown.eeatSignals
          + (0.10 : ℚ) * (analyze opts o d).breakdown.snippability
          + (0.15 : ℚ) * (analyze opts o d).breakdown.schemaCoverage)
      ∧ (analyze opts o d).overallScore ≤ 100 := by
  refine ⟨?_, overallScore_le opts o d⟩
  have h1 : (analyze opts o d).overallScore
      = (weightedTimes100 (collectChecks opts o d).1 + 50) / 100 := rfl
  rw [h1, analyze_breakdown_eq, natRound_eq_jsRound]
  congr 1
  unfold weightedTimes100
  push_cast
  ring

/-- C2: for every input document (the DOM of any HTML string, including empty or
malformed input) and every configuration, each of the six breakdown entries of the
result of `analyze` is an integer in `[0, 100]` (embedded as `Nat`, so the lower
bound is by construction); in particular the heading-structure subtraction is floored
at 0 (`Math.max(0, score)`) and the E-E-A-T sum is capped at 100 (`Math.min`). -/
theorem c2_breakdown_in_range (opts : AnalyzerOptions) (o : TextOracle) (d : Doc) :
    (0 ≤ (analyze opts o d).breakdown.answerFrontLoading
        ∧ (analyze opts o d).breakdown.answerFrontLoading ≤ 100)
      ∧ (0 ≤ (analyze opts o d).breakdown.factDensity
        ∧ (analyze opts o d).breakdown.factDensity ≤ 100)
      ∧ (0 ≤ (analyze opts o d).breakdown.headingStructure
        ∧ (analyze opts o d).breakdown.headingStructure ≤ 100)
      ∧ (0 ≤ (analyze opts o d).breakdown.eeatSignals
        ∧ (analyze opts o d).breakdown.eeatSignals ≤ 100)
      ∧ (0 ≤ (analyze opts o d).breakdown.snippability
        ∧ (analyze opts o d).breakdown.snippability ≤ 100)
      ∧ (0 ≤ (analyze opts o d).breakdown.schemaCoverage
        ∧ (analyze opts o d).breakdown.schemaCoverage ≤ 100) := by
  have hb := collectChecks_bounds opts o d
  rw [analyze_breakdown_eq]
  exact ⟨⟨Nat.zero_le _, hb.1⟩, ⟨Nat.zero_le _, hb.2.1⟩, ⟨Nat.zero_le _, hb.2.2.1⟩,
    ⟨Nat.zero_le _, hb.2.2.2.1⟩, ⟨Nat.zero_le _, hb.2.2.2.2.1⟩, ⟨Nat.zero_le _, hb.2.2.2.2.2⟩⟩

/-- C3: the issues of the result of `analyze` are sorted by severity rank
(high = 0, medium = 1, low = 2) in non-decreasing order, and within each severity the
sequence equals the subsequence of issues as produced by the checks in their fixed
run order (`collectChecks` collects them in the order answer-placement, fact-density,
heading-structure, eeat, snippability, schema). -/
theorem c3_issues_sorted_stably (opts : AnalyzerOptions) (o : TextOracle) (d : Doc) :
    (analyze opts o d).issues.Pairwise
        (fun a b => severityOrder a.severity ≤ severityOrder b.severity)
      ∧ ∀ s : Severity,
          (analyze opts o d).issues.filter (fun i => i.severity == s)
            = (collectChecks opts o d).2.filter (fun i => i.severity == s) := by
  constructor
  · rw [analyze_issues_eq]
    exact (sortIssues_sorted _).imp (fun h => by
      simpa [issueLE, decide_eq_true_eq] using h)
  · intro s
    rw [analyze_issues_eq]
    exact sortIssues_filter_sev _ s

/-- C4 counterexample: in `nestedParagraphDoc` a principal heading exists and no
main/content container is present, a paragraph *does* follow the heading in document
order (the spec's locator finds it), yet the code's locator
(`nextAll('p')`, siblings only) finds nothing and the check takes the
"no substantive paragraph" branch with score 20.  The claim's "first paragraph in
document order" reading is therefore false on the code. -/
theorem c4_locator_counterexample :
    selectAll (isTag "h1") nestedParagraphDoc ≠ []
      ∧ selectAll isMainContainer nestedParagraphDoc = []
      ∧ (specParagraphAfterH1 nestedParagraphDoc).isSome = true
      ∧ chosenParagraph nestedParagraphDoc = none
      ∧ chosenParagraph nestedParagraphDoc ≠ specParagraphAfterH1 nestedParagraphDoc
      ∧ (checkAnswerFrontLoading nestedParagraphDoc).score = 20 := by
  decide

/-- C4 amended: when a principal heading exists but no main/content container is
present, the paragraph inspected by the answer-placement check is the first `p`
element among the principal heading's *following siblings* (not the first `p` that
follows it in document order). -/
theorem c4_sibling_paragraph (d : Doc)
    (hh1 : selectAll (isTag "h1") d ≠ [])
    (hm : selectAll isMainContainer d = []) :
    chosenParagraph d = firstSiblingParagraphAfterH1 d := by
  have _unused := hh1
  unfold chosenParagraph firstSiblingParagraphAfterH1
  rw [hm]
  rfl

theorem c4_sibling_paragraph_witness :
    selectAll (isTag "h1") siblingParagraphDoc ≠ []
      ∧ selectAll isMainContainer siblingParagraphDoc = []
      ∧ chosenParagraph siblingParagraphDoc = firstSiblingParagraphAfterH1 siblingParagraphDoc :=
  ⟨by decide, by decide, c4_sibling_paragraph siblingParagraphDoc (by decide) (by decide)⟩

/-- C5: the fact-density check is exactly the documented piecewise function of the
total word count `W` and fact-token count `F` over all paragraphs, with the rate
`F / W * 100` compared exactly: `W = 0 ↦ (0, high)`, `rate < 2 ↦ (25, high)`,
`rate < 4 ↦ (60, medium)`, `rate > 10 ↦ (75, low)`, otherwise `(95, no issue)`;
in particular `W = 200`, `F = 12` (rate 6.0) yields score 95 and no issue.  The
one-decimal rate in a low/below-target message is the runtime's
`toFixed(1)` rendering (`TextOracle.rateFixed1`, evaluated on the computed
double), which the claim and this theorem do not constrain further. -/
theorem c5_fact_density_piecewise (o : TextOracle) (d : Doc) (W F : Nat)
    (hW : totalWords o d = W) (hF : totalFacts o d = F) :
    (W = 0 → checkFactDensity o d = ⟨0, [factDensityNoContentIssue]⟩)
      ∧ (W ≠ 0 → (F : ℚ) / W * 100 < 2 →
          checkFactDensity o d = ⟨25, [factDensityVeryLowIssue (o.rateFixed1 F W)]⟩)
      ∧ (W ≠ 0 → 2 ≤ (F : ℚ) / W * 100 → (F : ℚ) / W * 100 < 4 →
          checkFactDensity o d = ⟨60, [factDensityBelowTargetIssue (o.rateFixed1 F W)]⟩)
      ∧ (W ≠ 0 → (F : ℚ) / W * 100 > 10 →
          checkFactDensity o d = ⟨75, [factDensityTooDenseIssue]⟩)
      ∧ (W ≠ 0 → 4 ≤ (F : ℚ) / W * 100 → (F : ℚ) / W * 100 ≤ 10 →
          checkFactDensity o d = ⟨95, []⟩)
      ∧ (W = 200 → F = 12 → checkFactDensity o d = ⟨95, []⟩) := by
  have hcfd : checkFactDensity o d =
      (if W == 0 then ⟨0, [factDensityNoContentIssue]⟩
       else if 100 * F < 2 * W then ⟨25, [factDensityVeryLowIssue (o.rateFixed1 F W)]⟩
       else if 100 * F < 4 * W then ⟨60, [factDensityBelowTargetIssue (o.rateFixed1 F W)]⟩
       else if 100 * F > 10 * W then ⟨75, [factDensityTooDenseIssue]⟩
       else ⟨95, []⟩) := by
    unfold checkFactDensity
    rw [hW, hF]
  have hWpos : W ≠ 0 → (0 : ℚ) < W := by
    intro hW0
    exact_mod_cast Nat.pos_of_ne_zero hW0
  have hlt2 : W ≠ 0 → ((F : ℚ) / W * 100 < 2 ↔ 100 * F < 2 * W) := by
    intro hW0
    rw [div_mul_eq_mul_div, div_lt_iff₀ (hWpos hW0),
      show (F : ℚ) * 100 = ((100 * F : ℕ) : ℚ) by push_cast; ring,
      show (2 : ℚ) * W = ((2 * W : ℕ) : ℚ) by push_cast; ring, Nat.cast_lt]
  have hlt4 : W ≠ 0 → ((F : ℚ) / W * 100 < 4 ↔ 100 * F < 4 * W) := by
    intro hW0
    rw [div_mul_eq_mul_div, div_lt_iff₀ (hWpos hW0),
      show (F : ℚ) * 100 = ((100 * F : ℕ) : ℚ) by push_cast; ring,
      show (4 : ℚ) * W = ((4 * W : ℕ) : ℚ) by push_cast; ring, Nat.cast_lt]
  have hgt10 : W ≠ 0 → ((F : ℚ) / W * 100 > 10 ↔ 100 * F > 10 * W) := by
    intro hW0
    rw [div_mul_eq_mul_div, gt_iff_lt, lt_div_iff₀ (hWpos hW0),
      show (F : ℚ) * 100 = ((100 * F : ℕ) : ℚ) by push_cast; ring,
      show (10 : ℚ) * W = ((10 * W : ℕ) : ℚ) by push_cast; ring, Nat.cast_lt]
  refine ⟨?_, ?_, ?_, ?_, ?_, ?_⟩
  · intro h0
    rw [hcfd]
    simp [h0]
  · intro hW0 hrate
    rw [hlt2 hW0] at hrate
    rw [hcfd]
    simp [hW0, hrate]
  · intro hW0 hge2 hlt4h
    rw [hlt4 hW0] at hlt4h
    have hnot2 : ¬(100 * F < 2 * W) := by
      intro hc
      exact absurd ((hlt2 hW0).mpr hc) (not_lt.mpr hge2)
    rw [hcfd]
    simp [hW0, hnot2, hlt4h]
  · intro hW0 hrate
    rw [hgt10 hW0] at hrate
    have hnot2 : ¬(100 * F < 2 * W) := by omega
    have hnot4 : ¬(100 * F < 4 * W) := by omega
    rw [hcfd]
    simp [hW0, hnot2, hnot4, hrate]
  · intro hW0 hge4 hle10
    have h4 : ¬(100 * F < 4 * W) := by
      intro hc
      exact absurd ((hlt4 hW0).mpr hc) (not_lt.mpr hge4)
    have hnot2 : ¬(100 * F < 2 * W) := by omega
    have h10 : ¬(100 * F > 10 * W) := by
      intro hc
      exact absurd ((hgt10 hW0).mpr hc) (not_lt.mpr hle10)
    rw [hcfd]
    simp [hW0, hnot2, h4, h10]
  · intro h200 h12
    subst h200 h12
    rw [hcfd]
    norm_num

theorem c5_fact_density_piecewise_witness :
    totalWords rateOracle oneParagraphDoc = 200
      ∧ totalFacts rateOracle oneParagraphDoc = 12
      ∧ checkFactDensity rateOracle oneParagraphDoc = ⟨95, []⟩ :=
  ⟨by decide, by decide,
    (c5_fact_density_piecewise rateOracle oneParagraphDoc 200 12
      (by decide) (by decide)).2.2.2.2.2 rfl rfl⟩

/-- C6: for a document whose headings (levels 1-4, document order) are exactly an
`h1` directly followed by an `h3`, both non-empty, the heading-structure check emits
exactly the medium-severity "H3 without H2" issue (penalty 20) followed by the
low-severity "skipped level H1 → H3" issue (penalty 10), giving score
100 − 20 − 10 = 70. -/
theorem c6_h1_h3_both_findings (d : Doc) (a b : Node)
    (hsel : selectAll isHeading14 d = [a, b])
    (ha : tagOf a = "h1") (hb : tagOf b = "h3")
    (hna : jsTrim (textContent a) ≠ "") (hnb : jsTrim (textContent b) ≠ "") :
    checkHeadingStructure d = ⟨70, [h3WithoutH2Issue, mkSkippedIssue 1 3]⟩ := by
  have hsub1 : ∀ x : Node, isTag "h1" x = true → isHeading14 x = true := by
    intro x hx
    simp [isHeading14, hx]
  have hsub2 : ∀ x : Node, isTag "h2" x = true → isHeading14 x = true := by
    intro x hx
    simp [isHeading14, hx]
  have hsub3 : ∀ x : Node, isTag "h3" x = true → isHeading14 x = true := by
    intro x hx
    simp [isHeading14, hx]
  have hsub13 : ∀ x : Node, isHeading13 x = true → isHeading14 x = true := by
    intro x hx
    simp [isHeading13] at hx
    simp [isHeading14]
    tauto
  have hh1 : selectAll (isTag "h1") d = [a] := by
    rw [selectAll_sub (isTag "h1") isHeading14 d hsub1, hsel]
    simp [isTag, ha, hb]
  have hh2 : selectAll (isTag "h2") d = [] := by
    rw [selectAll_sub (isTag "h2") isHeading14 d hsub2, hsel]
    simp [isTag, ha, hb]
  have hh3 : selectAll (isTag "h3") d = [b] := by
    rw [selectAll_sub (isTag "h3") isHeading14 d hsub3, hsel]
    simp [isTag, ha, hb]
  have hh13 : selectAll isHeading13 d = [a, b] := by
    rw [selectAll_sub isHeading13 isHeading14 d hsub13, hsel]
    simp [isHeading13, isTag, ha, hb]
  have hla : headingLevel a = 1 := by
    unfold headingLevel
    rw [ha]
    decide
  have hlb : headingLevel b = 3 := by
    unfold headingLevel
    rw [hb]
    decide
  have hskip : skippedLevelIssues 1 [a, b] = [mkSkippedIssue 1 3] := by
    simp [skippedLevelIssues, hla, hlb]
  have hempty : emptyHeadingIssues [a, b] = [] := by
    simp [emptyHeadingIssues, hna, hnb]
  unfold checkHeadingStructure
  dsimp only
  rw [hh1, hh2, hh3, hsel, hh13, hskip, hempty]
  simp

theorem c6_h1_h3_both_findings_witness :
    selectAll isHeading14 h1h3Doc = [h1Node, h3Node]
      ∧ tagOf h1Node = "h1" ∧ tagOf h3Node = "h3"
      ∧ jsTrim (textContent h1Node) ≠ "" ∧ jsTrim (textContent h3Node) ≠ ""
      ∧ checkHeadingStructure h1h3Doc = ⟨70, [h3WithoutH2Issue, mkSkippedIssue 1 3]⟩ :=
  ⟨by decide, rfl, rfl, by decide, by decide,
    c6_h1_h3_both_findings h1h3Doc h1Node h3Node (by decide) rfl rfl (by decide) (by decide)⟩

/-- C7: for every input, a check disabled in the configuration forces its breakdown
entry to exactly 100 and contributes zero issues of its `type` to the result. -/
theorem c7_disabled_check (opts : AnalyzerOptions) (o : TextOracle) (d : Doc) :
    (opts.checkAnswerPlacement = false →
      (analyze opts o d).breakdown.answerFrontLoading = 100
        ∧ (analyze opts o d).issues.countP (fun i => i.type == IssueType.answerPlacement) = 0)
    ∧ (opts.checkFactDensity = false →
      (analyze opts o d).breakdown.factDensity = 100
        ∧ (analyze opts o d).issues.countP (fun i => i.type == IssueType.factDensity) = 0)
    ∧ (opts.checkHeadingStructure = false →
      (analyze opts o d).breakdown.headingStructure = 100
        ∧ (analyze opts o d).issues.countP (fun i => i.type == IssueType.headingStructure) = 0)
    ∧ (opts.checkEEAT = false →
      (analyze opts o d).breakdown.eeatSignals = 100
        ∧ (analyze opts o d).issues.countP (fun i => i.type == IssueType.eeat) = 0)
    ∧ (opts.checkSnippability = false →
      (analyze opts o d).breakdown.snippability = 100
        ∧ (analyze opts o d).issues.countP (fun i => i.type == IssueType.snippability) = 0)
    ∧ (opts.checkSchema = false →
      (analyze opts o d).breakdown.schemaCoverage = 100
        ∧ (analyze opts o d).issues.countP (fun i => i.type == IssueType.schema) = 0) := by
  refine ⟨fun h => ⟨?_, ?_⟩, fun h => ⟨?_, ?_⟩, fun h => ⟨?_, ?_⟩,
    fun h => ⟨?_, ?_⟩, fun h => ⟨?_, ?_⟩, fun h => ⟨?_, ?_⟩⟩
  all_goals first
  | (rw [analyze_breakdown_eq]
     unfold collectChecks
     dsimp only
     rw [h]
     rfl)
  | skip
  · rw [analyze_countP, collectChecks_issues_eq]
    simp only [List.countP_append, h, Bool.false_eq_true, if_false]
    rw [ite_issues_countP_zero _ _ _ (fun i hi => by simp [factDensity_issue_types hi]),
      ite_issues_countP_zero _ _ _ (fun i hi => by simp [headingStructure_issue_types hi]),
      ite_issues_countP_zero _ _ _ (fun i hi => by simp [eeat_issue_types hi]),
      ite_issues_countP_zero _ _ _ (fun i hi => by simp [snippability_issue_types hi]),
      ite_issues_countP_zero _ _ _ (fun i hi => by simp [schema_issue_types hi])]
    rfl
  · rw [analyze_countP, collectChecks_issues_eq]
    simp only [List.countP_append, h, Bool.false_eq_true, if_false]
    rw [ite_issues_countP_zero _ _ _ (fun i hi => by simp [answer_issue_types hi]),
      ite_issues_countP_zero _ _ _ (fun i hi => by simp [headingStructure_issue_types hi]),
      ite_issues_countP_zero _ _ _ (fun i hi => by simp [eeat_issue_types hi]),
      ite_issues_countP_zero _ _ _ (fun i hi => by simp [snippability_issue_types hi]),
      ite_issues_countP_zero _ _ _ (fun i hi => by simp [schema_issue_types hi])]
    rfl
  · rw [analyze_countP, collectChecks_issues_eq]
    simp only [List.countP_append, h, Bool.false_eq_true, if_false]
    rw [ite_issues_countP_zero _ _ _ (fun i hi => by simp [answer_issue_types hi]),
      ite_issues_countP_zero _ _ _ (fun i hi => by simp [factDensity_issue_types hi]),
      ite_issues_countP_zero _ _ _ (fun i hi => by simp [eeat_issue_types hi]),
      ite_issues_countP_zero _ _ _ (fun i hi => by simp [snippability_issue_types hi]),
      ite_issues_countP_zero _ _ _ (fun i hi => by simp [schema_issue_types hi])]
    rfl
  · rw [analyze_countP, collectChecks_issues_eq]
    simp only [List.countP_append, h, Bool.false_eq_true, if_false]
    rw [ite_issues_countP_zero _ _ _ (fun i hi => by simp [answer_issue_types hi]),
      ite_issues_countP_zero _ _ _ (fun i hi => by simp [factDensity_issue_types hi]),
      ite_issues_countP_zero _ _ _ (fun i hi => by simp [headingStructure_issue_types hi]),
      ite_issues_countP_zero _ _ _ (fun i hi => by simp [snippability_issue_types hi]),
      ite_issues_countP_zero _ _ _ (fun i hi => by simp [schema_issue_types hi])]
    rfl
  · rw [analyze_countP, collectChecks_issues_eq]
    simp only [List.countP_append, h, Bool.false_eq_true, if_false]
    rw [ite_issues_countP_zero _ _ _ (fun i hi => by simp [answer_issue_types hi]),
      ite_issues_countP_zero _ _ _ (fun i hi => by simp [factDensity_issue_types hi]),
      ite_issues_countP_zero _ _ _ (fun i hi => by simp [headingStructure_issue_types hi]),
      ite_issues_countP_zero _ _ _ (fun i hi => by simp [eeat_issue_types hi]),
      ite_issues_countP_zero _ _ _ (fun i hi => by simp [schema_issue_types hi])]
    rfl
  · rw [analyze_countP, collectChecks_issues_eq]
    simp only [List.countP_append, h, Bool.false_eq_true, if_false]
    rw [ite_issues_countP_zero _ _ _ (fun i hi => by simp [answer_issue_types hi]),
      ite_issues_countP_zero _ _ _ (fun i hi => by simp [factDensity_issue_types hi]),
      ite_issues_countP_zero _ _ _ (fun i hi => by simp [headingStructure_issue_types hi]),
      ite_issues_countP_zero _ _ _ (fun i hi => by simp [eeat_issue_types hi]),
      ite_issues_countP_zero _ _ _ (fun i hi => by simp [snippability_issue_types hi])]
    rfl

theorem c7_disabled_check_witness :
    ((analyze allDisabledOptions trivialOracle emptyDoc).breakdown.answerFrontLoading = 100
      ∧ (analyze allDisabledOptions trivialOracle emptyDoc).issues.countP
          (fun i => i.type == IssueType.answerPlacement) = 0)
    ∧ ((analyze allDisabledOptions trivialOracle emptyDoc).breakdown.factDensity = 100
      ∧ (analyze allDisabledOptions trivialOracle emptyDoc).issues.countP
          (fun i => i.type == IssueType.factDensity) = 0)
    ∧ ((analyze allDisabledOptions trivialOracle emptyDoc).breakdown.headingStructure = 100
      ∧ (analyze allDisabledOptions trivialOracle emptyDoc).issues.countP
          (fun i => i.type == IssueType.headingStructure) = 0)
    ∧ ((analyze allDisabledOptions trivialOracle emptyDoc).breakdown.eeatSignals = 100
      ∧ (analyze allDisabledOptions trivialOracle emptyDoc).issues.countP
          (fun i => i.type == IssueType.eeat) = 0)
    ∧ ((analyze allDisabledOptions trivialOracle emptyDoc).breakdown.snippability = 100
      ∧ (analyze allDisabledOptions trivialOracle emptyDoc).issues.countP
          (fun i => i.type == IssueType.snippability) = 0)
    ∧ ((analyze allDisabledOptions trivialOracle emptyDoc).breakdown.schemaCoverage = 100
      ∧ (analyze allDisabledOptions trivialOracle emptyDoc).issues.countP
          (fun i => i.type == IssueType.schema) = 0) :=
  ⟨(c7_disabled_check allDisabledOptions trivialOracle emptyDoc).1 rfl,
    (c7_disabled_check allDisabledOptions trivialOracle emptyDoc).2.1 rfl,
    (c7_disabled_check allDisabledOptions trivialOracle emptyDoc).2.2.1 rfl,
    (c7_disabled_check allDisabledOptions trivialOracle emptyDoc).2.2.2.1 rfl,
    (c7_disabled_check allDisabledOptions trivialOracle emptyDoc).2.2.2.2.1 rfl,
    (c7_disabled_check allDisabledOptions trivialOracle emptyDoc).2.2.2.2.2 rfl⟩

/-- C8: `analyze` is deterministic — two calls on equal parsed inputs, equal
configurations and an equal runtime text oracle produce results identical in every
field.  In the embedding `analyze` is a pure function, which is exactly the source's
situation: one parse pass, six synchronous checks, no shared mutable state. -/
theorem c8_deterministic (opts1 opts2 : AnalyzerOptions) (o1 o2 : TextOracle)
    (d1 d2 : Doc) (hd : d1 = d2) (hopts : opts1 = opts2) (ho : o1 = o2) :
    (analyze opts1 o1 d1).overallScore = (analyze opts2 o2 d2).overallScore
      ∧ (analyze opts1 o1 d1).breakdown = (analyze opts2 o2 d2).breakdown
      ∧ (analyze opts1 o1 d1).issues = (analyze opts2 o2 d2).issues
      ∧ (analyze opts1 o1 d1).recommendations = (analyze opts2 o2 d2).recommendations := by
  subst hd hopts ho
  exact ⟨rfl, rfl, rfl, rfl⟩

theorem c8_deterministic_witness :
    (analyze {} trivialOracle emptyDoc).overallScore
        = (analyze {} trivialOracle emptyDoc).overallScore
      ∧ (analyze {} trivialOracle emptyDoc).breakdown
        = (analyze {} trivialOracle emptyDoc).breakdown
      ∧ (analyze {} trivialOracle emptyDoc).issues
        = (analyze {} trivialOracle emptyDoc).issues
      ∧ (analyze {} trivialOracle emptyDoc).recommendations
        = (analyze {} trivialOracle emptyDoc).recommendations :=
  c8_deterministic {} {} trivialOracle trivialOracle emptyDoc emptyDoc rfl rfl rfl

/-- C9: with the default (all-enabled) configuration, `analyze` on the parse of the
empty string is a total function returning a well-formed result: the
heading-structure score took the missing-H1 branch (100 − 40 = 60), the schema score
is 0, the fact-density score is 0, each of those three checks contributes at least
one issue, and the overall score is in range.  This holds for every text oracle. -/
theorem c9_empty_document (o : TextOracle) :
    (analyze {} o emptyDoc).breakdown.headingStructure = 60
      ∧ (analyze {} o emptyDoc).breakdown.schemaCoverage = 0
      ∧ (analyze {} o emptyDoc).breakdown.factDensity = 0
      ∧ 1 ≤ (analyze {} o emptyDoc).issues.countP (fun i => i.type == IssueType.headingStructure)
      ∧ 1 ≤ (analyze {} o emptyDoc).issues.countP (fun i => i.type == IssueType.schema)
      ∧ 1 ≤ (analyze {} o emptyDoc).issues.countP (fun i => i.type == IssueType.factDensity)
      ∧ (analyze {} o emptyDoc).overallScore ≤ 100 := by
  refine ⟨rfl, rfl, rfl, ?_, ?_, ?_, overallScore_le _ o emptyDoc⟩
  all_goals
    rw [analyze_countP, collectChecks_issues_eq]
    simp only [List.countP_append, if_true]
  · have h3 : (checkHeadingStructure emptyDoc).issues.countP
        (fun i => i.type == IssueType.headingStructure) = 1 := by decide
    omega
  · have h6 : (checkSchemaCoverage o emptyDoc).issues.countP
        (fun i => i.type == IssueType.schema) = 1 := by
      have h : (checkSchemaCoverage o emptyDoc).issues = [schemaNoneIssue] := rfl
      rw [h]
      rfl
    omega
  · have h2 : (checkFactDensity o emptyDoc).issues.countP
        (fun i => i.type == IssueType.factDensity) = 1 := by
      have h : (checkFactDensity o emptyDoc).issues = [factDensityNoContentIssue] := rfl
      rw [h]
      rfl
    omega

/-- C10: the skipped-level walk starts its previous-level tracker at 1, so whenever
the first heading of the document (among levels 1-4 in document order) has level 3
or 4, the check emits the low-severity skipped-level issue naming H1 and that level
and its −10 penalty caps the score at 90, even though no `h1` precedes it. -/
theorem c10_initial_level_skip (d : Doc) (n : Nat) (a : Node) (rest : List Node)
    (hsel : selectAll isHeading14 d = a :: rest)
    (hlev : headingLevel a = n) (hn : n = 3 ∨ n = 4) :
    mkSkippedIssue 1 n ∈ (checkHeadingStructure d).issues
      ∧ (checkHeadingStructure d).score ≤ 90 := by
  have hskip : skippedLevelIssues 1 (a :: rest)
      = mkSkippedIssue 1 n :: skippedLevelIssues n rest := by
    rcases hn with h | h <;> subst h <;> simp [skippedLevelIssues, hlev]
  constructor
  · show mkSkippedIssue 1 n ∈ (checkHeadingStructure d).issues
    unfold checkHeadingStructure
    dsimp only
    rw [hsel, hskip]
    refine List.mem_append_left _ (List.mem_append_right _ ?_)
    exact List.mem_cons_self _ _
  · unfold checkHeadingStructure
    dsimp only
    rw [hsel, hskip]
    simp only [List.length_cons]
    repeat' split
    all_goals omega

theorem c10_initial_level_skip_witness :
    selectAll isHeading14 h3FirstDoc = [h3OnlyNode]
      ∧ headingLevel h3OnlyNode = 3
      ∧ (mkSkippedIssue 1 3 ∈ (checkHeadingStructure h3FirstDoc).issues
          ∧ (checkHeadingStructure h3FirstDoc).score ≤ 90) :=
  ⟨by decide, by decide,
    c10_initial_level_skip h3FirstDoc 3 h3OnlyNode [] (by decide) (by decide) (Or.inl rfl)⟩

end AIVisibility
